import Mathlib

/-
Verification of the proxy-tester harness and the subscription collector.

Part 1 (namespace XrayTest) embeds the Go tester
(src/xray_test/enhanced-proxy-tester.go): the batch orchestration of
`TestConfigsSafe`, the admission gate `canTest`, the per-task flow
`testConfigWithResources` / `testSingleConfigResourceAware`, the metric
aggregation `updateMetrics`, the metrics endpoint arithmetic of
`serveMetrics`, and the worker pool's `safeExecute` / `worker` loop.
External effects (the OS clock, the port allocator's verdict, the context's
cancellation state, and the separately-defined `testSingleConfig` probe) are
passed in as explicit inputs of a `TaskEnv` record, so every function here is
a pure function of the code's actual branching structure.

Part 2 (namespace Collector) embeds the C++ link parser
`SocksHttpBean::TryParseLink` (src/unnamed/part_001) together with the
string helpers `SubStrBefore` / `SubStrAfter` (src/unnamed/part_002).
Qt's `QUrl` is a library type; its parse result is modelled as a record of
the accessors the parser reads (isValid, host, port, fragment, userName,
password), with `port` equal to -1 when the URL carries no explicit port,
exactly as `QUrl::port()` reports it.
-/

namespace XrayTest

/-- Result classification of one proxy test.  The Go type `TestResult` is a
string; the values here are the enumerated constants of the spec (§3)
together with `portExhausted`, which the spec's error taxonomy (§7) names. -/
inductive TestResult where
  | success
  | failure
  | timeout
  | portConflict
  | resourceExhausted
  | launchFailed
  | probeFailed
  | cancelled
  | portExhausted
  deriving DecidableEq, Repr

/-- One candidate configuration.  The tester reads nothing of the record
except the mutable `port` slot it fills before launch, so the model keeps a
tag plus that slot. -/
structure ProxyConfig where
  name : String
  port : Int
  deriving DecidableEq, Repr

/-- Result record of one test, as built by the tester. -/
structure TestResultData where
  config : ProxyConfig
  result : TestResult
  message : String
  /-- Go `time.Duration`, in nanoseconds; 0 is the zero value. -/
  responseTime : Nat
  deriving DecidableEq, Repr

/-- The external circumstances one task runs under: the port allocator's
verdict, the context's cancellation state at the check in
`testSingleConfigResourceAware`, the behaviour of the separately-defined
`testSingleConfig` probe, and the wall-clock reading `time.Since(start)`
taken at the end of `testConfigWithResources`. -/
structure TaskEnv where
  /-- Result of `portMgr.Acquire()`: an available port, or failure. -/
  portAcquire : Option Int
  /-- The error text when `Acquire` fails. -/
  acquireErrMsg : String
  /-- Whether `ctx.Done()` fires at the select in
  `testSingleConfigResourceAware`. -/
  ctxDone : Bool
  /-- The text of `ctx.Err()` at that point. -/
  ctxErrMsg : String
  /-- The result of `ept.testSingleConfig`, the probe defined in a separate
  file of the repository; its outcome is an input here. -/
  innerTest : ProxyConfig → TestResultData
  /-- Nanoseconds elapsed from the entry of `testConfigWithResources` to the
  `time.Since(start)` call on its result. -/
  elapsed : Nat

/-- Lines 370-384: check the context first and return a `ResultTimeout`
record with message `"Test cancelled: <ctx err>"` when it is done; otherwise
run the existing single-config test. -/
def testSingleConfigResourceAware (env : TaskEnv) (config : ProxyConfig) :
    TestResultData :=
  if env.ctxDone then
    { config := config
      result := .timeout
      message := "Test cancelled: " ++ env.ctxErrMsg
      responseTime := 0 }
  else
    env.innerTest config

/-- Lines 337-368: acquire a port (returning a `ResultPortConflict` record on
failure), copy the config with the leased port, run the resource-aware test,
and stamp `ResponseTime` with `time.Since(start)` on whatever result came
back. -/
def testConfigWithResources (env : TaskEnv) (config : ProxyConfig) :
    TestResultData :=
  match env.portAcquire with
  | none =>
    { config := config
      result := .portConflict
      message := "Failed to acquire port: " ++ env.acquireErrMsg
      responseTime := 0 }
  | some port =>
    let testConfig : ProxyConfig := { config with port := port }
    let result := testSingleConfigResourceAware env testConfig
    { result with responseTime := env.elapsed }

/-- The resource readings `canTest` consults: the configured limits and the
polled allocator / process counters. -/
structure ResourceState where
  /-- `config.MaxMemoryMB` (int). -/
  maxMemoryMB : Int
  /-- `config.MaxWorkers` (int). -/
  maxWorkers : Int
  /-- `m.Alloc` from `runtime.ReadMemStats`, in bytes. -/
  allocBytes : Nat
  /-- `ept.activeProcesses` (int64). -/
  activeProcesses : Int
  deriving DecidableEq, Repr

/-- Line 391: `memoryMB := int64(m.Alloc) / (1024 * 1024)` (integer
division of a non-negative quantity). -/
def memoryMB (s : ResourceState) : Int :=
  (s.allocBytes : Int) / (1024 * 1024)

/-- Lines 386-403: deny when the memory limit is positive and exceeded
(strictly), deny when `activeProcesses >= MaxWorkers`, admit otherwise. -/
def canTest (s : ResourceState) : Bool :=
  if s.maxMemoryMB > 0 && memoryMB s > s.maxMemoryMB then false
  else if s.activeProcesses ≥ s.maxWorkers then false
  else true

/-- Lines 293-309, the task closure submitted for one config: record
`ResultResourceExhausted` at once when `canTest` denies, otherwise run
`testConfigWithResources`. -/
def taskResult (s : ResourceState) (env : TaskEnv) (config : ProxyConfig) :
    TestResultData :=
  if !canTest s then
    { config := config
      result := .resourceExhausted
      message := "Insufficient resources"
      responseTime := 0 }
  else
    testConfigWithResources env config

/-- Everything that determines one config's fate inside a batch: the config,
whether the non-blocking `workerPool.Submit` succeeded (line 312), whether
`ept.ctx.Done()` fired at that iteration of the submission loop (line 288),
and the resource state and task environment its closure observes. -/
structure BatchItem where
  config : ProxyConfig
  /-- False models `Submit` returning queue-full or shutting-down. -/
  submitOk : Bool
  /-- Whether the tester context is done at this submission step. -/
  ctxDoneAtSubmit : Bool
  res : ResourceState
  env : TaskEnv

/-- The submission loop of `TestConfigsSafe` (lines 286-318) together with
the collection loop (lines 320-329).  A context cancellation during
submission aborts the call with an error (`none`); a failed `Submit` is
logged and skipped, producing no result for that config; every successfully
submitted task contributes exactly one result to the channel. -/
def submitLoop : List BatchItem → Option (List TestResultData)
  | [] => some []
  | it :: rest =>
    if it.ctxDoneAtSubmit then none
    else
      match submitLoop rest with
      | none => none
      | some rs =>
        if it.submitOk then some (taskResult it.res it.env it.config :: rs)
        else some rs

/-- Lines 270-335: empty input returns the empty (nil) result list at once;
otherwise run the submission and collection loops. -/
def TestConfigsSafe (items : List BatchItem) : Option (List TestResultData) :=
  if items.isEmpty then some []
  else submitLoop items

/-- How one executed task behaves: runs to completion, or panics with the
formatted value `v`. -/
inductive TaskOutcome where
  | normal
  | panics (v : String)
  deriving DecidableEq, Repr

/-- Lines 170-181: run the task under a recover; a recovered panic becomes
the error `"panic in worker: <value>"`, a normal run returns nil. -/
def safeExecute (outcome : TaskOutcome) : Option String :=
  match outcome with
  | .normal => none
  | .panics v => some ("panic in worker: " ++ v)

/-- Lines 150-168, the worker loop: execute each received task through
`safeExecute` and push the returned error onto the result queue, then keep
looping. -/
def workerRun (tasks : List TaskOutcome) : List (Option String) :=
  tasks.map safeExecute

/-- The aggregated metric state (`TestMetrics`, lines 102-111).  The Go
`avgResponseTime` is a float64; it is modelled over the rationals, which
carries the exact arithmetic of the update formula. -/
structure TestMetrics where
  totalTests : Int
  successfulTests : Int
  failedTests : Int
  avgResponseTime : ℚ
  deriving DecidableEq, Repr

/-- The state `NewTestMetrics` starts from: all counters and the average at
their zero values. -/
def initMetrics : TestMetrics :=
  { totalTests := 0, successfulTests := 0, failedTests := 0
    avgResponseTime := 0 }

/-- Go `Duration.Seconds()`: nanoseconds over 10^9, exact over ℚ. -/
def durationSeconds (ns : Nat) : ℚ :=
  (ns : ℚ) / 1000000000

/-- Lines 428-449: increment `totalTests`; increment `successfulTests` on a
success and `failedTests` otherwise; then, when the result carries a
positive `ResponseTime` and the (just incremented) total is positive, fold
the sample into the running average
`(avg * (total - 1) + sample) / total`. -/
def updateMetrics (m : TestMetrics) (result : TestResultData) : TestMetrics :=
  let m1 : TestMetrics := { m with totalTests := m.totalTests + 1 }
  let m2 : TestMetrics :=
    if result.result = .success then
      { m1 with successfulTests := m1.successfulTests + 1 }
    else
      { m1 with failedTests := m1.failedTests + 1 }
  if result.responseTime > 0 then
    let total := m2.totalTests
    if total > 0 then
      { m2 with
        avgResponseTime :=
          (m2.avgResponseTime * ((total : ℚ) - 1)
              + durationSeconds result.responseTime) / (total : ℚ) }
    else m2
  else m2

/-- Lines 546-551, the two-argument `max` the metrics handler uses. -/
def goMax (a b : Int) : Int :=
  if a > b then a else b

/-- Line 535 of `serveMetrics`: the served success rate,
`successfulTests / max(1, totalTests) * 100`, exact over ℚ. -/
def serveMetricsSuccessRate (m : TestMetrics) : ℚ :=
  (m.successfulTests : ℚ) / ((goMax 1 m.totalTests : Int) : ℚ) * 100

end XrayTest

namespace Collector

/-- SubStrBefore (src/unnamed/part_002): the text before the first
occurrence of the separator, or the whole string when the separator does not
occur. -/
def SubStrBefore (str sep : String) : String :=
  match str.splitOn sep with
  | [] => str
  | x :: _ => x

/-- SubStrAfter (src/unnamed/part_002): the text after the first occurrence
of the separator, or the empty string when the separator does not occur. -/
def SubStrAfter (str sep : String) : String :=
  match str.splitOn sep with
  | [] => ""
  | [_] => ""
  | _ :: rest => String.intercalate sep rest

/-- The accessors of Qt's `QUrl(link)` that `SocksHttpBean::TryParseLink`
reads, taken as an input record since `QUrl` is a library type:
`port` is the `QUrl::port()` value, -1 when the URL carries no explicit
port. -/
structure QUrlView where
  isValid : Bool
  host : String
  port : Int
  fragment : String
  userName : String
  password : String
  deriving DecidableEq, Repr

/-- The `SocksHttpBean` record (src/main/include/ProxyBean.h): base fields
plus username and password. -/
structure SocksHttpBean where
  type : String
  name : String
  serverAddress : String
  serverPort : Int
  username : String
  password : String
  deriving DecidableEq, Repr

/-- A fresh `SocksHttpBean`, with the defaults of ProxyBean.h. -/
def SocksHttpBean.mkDefault : SocksHttpBean :=
  { type := "", name := "", serverAddress := "", serverPort := 0
    username := "", password := "" }

/-- QString::startsWith on the link text, as a prefix test on the character
sequences. -/
def strStartsWith (s p : String) : Bool :=
  p.data.isPrefixOf s.data

/-- TryParseLink, first block (lines 262-272): classify the scheme from the
link's prefix and copy the URL accessors into the bean's fields. -/
def parseBase (link : String) (url : QUrlView) (bean : SocksHttpBean) :
    SocksHttpBean :=
  { bean with
    type :=
      if strStartsWith link ("socks") then "socks"
      else if strStartsWith link ("http") then "http"
      else bean.type
    name := url.fragment
    serverAddress := url.host
    serverPort := url.port
    username := url.userName
    password := url.password }

/-- TryParseLink, lines 274-276: when `QUrl::port()` reported -1, default
the server port to 443 for the http type and 1080 otherwise. -/
def applyPortDefault (b : SocksHttpBean) : SocksHttpBean :=
  if b.serverPort = -1 then
    { b with serverPort := if b.type = "http" then 443 else 1080 }
  else b

/-- TryParseLink, lines 278-285 (the v2rayN form): when the password is
empty and the username is not, try to base64-decode the username into a
`user:pass` pair. -/
def applyV2rayN (decodeB64 : String → String) (b : SocksHttpBean) :
    SocksHttpBean :=
  if b.password = "" && !(b.username = "") then
    if !(decodeB64 b.username = "") then
      { b with
        username := SubStrBefore (decodeB64 b.username) (":")
        password := SubStrAfter (decodeB64 b.username) (":") }
    else b
  else b

/-- SocksHttpBean::TryParseLink (src/unnamed/part_001 lines 258-288).
`decodeB64` abstracts `DecodeB64IfValid` (a regex check plus Qt's base64
decoder), returning the decoded text or empty when the input is not valid
base64.  Returns the updated bean on success (`true` in the C++), `none` on
failure (`false`, an invalid URL or an empty host). -/
def tryParseLink (decodeB64 : String → String) (link : String)
    (url : QUrlView) (bean : SocksHttpBean) : Option SocksHttpBean :=
  if !url.isValid then none
  else
    let b := applyV2rayN decodeB64 (applyPortDefault (parseBase link url bean))
    if b.serverAddress = "" then none else some b

end Collector

namespace XrayTest

/-- A sample input configuration. -/
def cfg0 : ProxyConfig := { name := "cfg0", port := 0 }

/-- A probe behaviour: every inner test succeeds instantly. -/
def probeSuccess : ProxyConfig → TestResultData :=
  fun c => { config := c, result := .success, message := "", responseTime := 0 }

/-- A benign task environment: port available, context live, probe succeeds,
100 ms elapse. -/
def envOk : TaskEnv :=
  { portAcquire := some 10000, acquireErrMsg := "", ctxDone := false
    ctxErrMsg := "", innerTest := probeSuccess, elapsed := 100000000 }

/-- A task environment whose context is already done when the task starts;
3 ms have elapsed when the result is stamped. -/
def envCtxDone : TaskEnv :=
  { envOk with
    ctxDone := true
    ctxErrMsg := "context canceled"
    elapsed := 3000000 }

/-- A task environment where the port manager has no free port. -/
def envNoPort : TaskEnv :=
  { envOk with portAcquire := none, acquireErrMsg := "no ports available" }

/-- Resource readings with ample headroom. -/
def resOk : ResourceState :=
  { maxMemoryMB := 1024, maxWorkers := 100, allocBytes := 0
    activeProcesses := 0 }

/-- Resource readings with the process limit reached, so `canTest` denies. -/
def resBusy : ResourceState := { resOk with activeProcesses := 100 }

/-- Resource readings where resident memory equals the limit exactly:
`allocBytes = 2^30`, so `memoryMB = 1024 = maxMemoryMB`. -/
def resMemEq : ResourceState := { resOk with allocBytes := 1073741824 }

/-- A batch item whose submission to the worker pool fails (queue full). -/
def itemDrop : BatchItem :=
  { config := cfg0, submitOk := false, ctxDoneAtSubmit := false
    res := resOk, env := envOk }

/-- A batch item whose submission succeeds and whose task runs normally. -/
def itemOk : BatchItem :=
  { config := cfg0, submitOk := true, ctxDoneAtSubmit := false
    res := resOk, env := envOk }

/-- A batch item whose task fails to acquire a port. -/
def itemNoPort : BatchItem :=
  { config := cfg0, submitOk := true, ctxDoneAtSubmit := false
    res := resOk, env := envNoPort }

/-- A completed non-success result carrying a 2 s response time, as
`testConfigWithResources` produces for any failed test that got past port
acquisition. -/
def failRD : TestResultData :=
  { config := cfg0, result := .failure, message := "probe failed"
    responseTime := 2000000000 }

/-- Consistency of the metric counters: the total equals success plus
failure and both parts are non-negative. -/
def countersConsistent (m : TestMetrics) : Prop :=
  m.totalTests = m.successfulTests + m.failedTests ∧
    0 ≤ m.successfulTests ∧ 0 ≤ m.failedTests

end XrayTest

namespace Collector

/-- A parsed URL view with no explicit port (`QUrl::port()` = -1). -/
def urlNoPort : QUrlView :=
  { isValid := true, host := "example.com", port := -1, fragment := ""
    userName := "", password := "" }

end Collector

namespace XrayTest

/-- Every successfully submitted task contributes exactly one result: when
the submission loop completes, the collected list has one entry per item
whose `Submit` succeeded. -/
theorem submitLoop_length (items : List BatchItem) (rs : List TestResultData)
    (h : submitLoop items = some rs) :
    rs.length = (items.filter fun it => it.submitOk).length := by
  induction items generalizing rs with
  | nil =>
    simp [submitLoop] at h
    simp [h.symm]
  | cons it rest ih =>
    by_cases hc : it.ctxDoneAtSubmit
    · simp [submitLoop, hc] at h
    · simp only [submitLoop, hc, if_false, Bool.false_eq_true] at h
      cases hrest : submitLoop rest with
      | none => rw [hrest] at h; exact absurd h (by simp)
      | some rs0 =>
        rw [hrest] at h
        by_cases hsub : it.submitOk
        · simp [hsub] at h
          simp [List.filter, hsub, h.symm, ih rs0 hrest]
        · simp [hsub] at h
          simp [List.filter, hsub, h.symm, ih rs0 hrest]

/-- One metric update increments the total by exactly one and exactly one of
the success / failure counters, leaving the other unchanged. -/
theorem updateMetrics_step (m : TestMetrics) (r : TestResultData) :
    (updateMetrics m r).totalTests = m.totalTests + 1 ∧
    ((updateMetrics m r).successfulTests = m.successfulTests ∨
      (updateMetrics m r).successfulTests = m.successfulTests + 1) ∧
    ((updateMetrics m r).failedTests = m.failedTests ∨
      (updateMetrics m r).failedTests = m.failedTests + 1) ∧
    (updateMetrics m r).successfulTests + (updateMetrics m r).failedTests =
      m.successfulTests + m.failedTests + 1 := by
  unfold updateMetrics
  by_cases hs : r.result = .success <;>
    by_cases hrt : r.responseTime > 0 <;>
      simp [hs, hrt] <;>
        first
          | omega
          | (split <;> simp <;> omega)

/-- The counter-consistency invariant is preserved by one metric update. -/
theorem countersConsistent_update (m : TestMetrics) (r : TestResultData)
    (h : countersConsistent m) : countersConsistent (updateMetrics m r) := by
  obtain ⟨h1, h2, h3⟩ := h
  obtain ⟨s1, s2, s3, s4⟩ := updateMetrics_step m r
  refine ⟨?_, ?_, ?_⟩ <;> omega

/-- The counter-consistency invariant holds after folding any sequence of
completed results into the initial metric state. -/
theorem countersConsistent_fold (results : List TestResultData) :
    countersConsistent (results.foldl updateMetrics initMetrics) := by
  have step : ∀ (l : List TestResultData) (m : TestMetrics),
      countersConsistent m → countersConsistent (l.foldl updateMetrics m) := by
    intro l
    induction l with
    | nil => intro m hm; exact hm
    | cons r rest ih =>
      intro m hm
      exact ih (updateMetrics m r) (countersConsistent_update m r hm)
  have hinit : countersConsistent initMetrics := by
    refine ⟨rfl, le_refl 0, le_refl 0⟩
  exact step results initMetrics hinit

end XrayTest

namespace XrayTest

/-- Claim C1, counterexample: a singleton batch whose one task submission
fails returns an empty result list, so the result list does not contain one
entry per input config. -/
theorem c1_len_counterexample :
    TestConfigsSafe [itemDrop] = some [] ∧
      List.length ([] : List TestResultData) ≠ List.length [itemDrop] := by
  refine ⟨rfl, by decide⟩

/-- Claim C1 (amended): when `TestConfigsSafe` returns a result list, it
contains exactly one TestResultData per config whose task submission to the
worker pool succeeded; a config whose submission fails contributes no
result, so the list has length `len(configs)` exactly when every submission
succeeds. -/
theorem c1_one_result_per_submitted (items : List BatchItem)
    (rs : List TestResultData) (h : TestConfigsSafe items = some rs) :
    rs.length = (items.filter fun it => it.submitOk).length := by
  unfold TestConfigsSafe at h
  by_cases he : items.isEmpty
  · rw [if_pos he] at h
    rw [List.isEmpty_iff] at he
    subst he
    simp at h
    simp [h.symm]
  · rw [if_neg he] at h
    exact submitLoop_length items rs h

/-- Claim C1 witness: on a two-item batch whose second submission fails, the
returned list has exactly one entry, matching the one successful
submission. -/
theorem c1_one_result_per_submitted_witness :
    List.length [taskResult resOk envOk cfg0] =
      (List.filter (fun it => it.submitOk) [itemOk, itemDrop]).length :=
  c1_one_result_per_submitted [itemOk, itemDrop]
    [taskResult resOk envOk cfg0] rfl

/-- Claim C8: after any sequence of completed metric updates starting from
the initial state, `totalTests = successfulTests + failedTests`; moreover a
single update increments the total by exactly one and exactly one of the
success / failure counters. -/
theorem c8_counters_invariant (results : List TestResultData) :
    ((results.foldl updateMetrics initMetrics).totalTests =
      (results.foldl updateMetrics initMetrics).successfulTests +
        (results.foldl updateMetrics initMetrics).failedTests) ∧
    ∀ (m : TestMetrics) (r : TestResultData),
      (updateMetrics m r).totalTests = m.totalTests + 1 ∧
      (updateMetrics m r).successfulTests + (updateMetrics m r).failedTests =
        m.successfulTests + m.failedTests + 1 := by
  refine ⟨(countersConsistent_fold results).1, ?_⟩
  intro m r
  obtain ⟨s1, _, _, s4⟩ := updateMetrics_step m r
  exact ⟨s1, s4⟩

/-- Claim C9: the served success rate divides by `max(1, totalTests)`, which
is always positive, and when no test has completed the served rate is 0. -/
theorem c9_success_rate_well_defined (results : List TestResultData) :
    0 < goMax 1 (results.foldl updateMetrics initMetrics).totalTests ∧
    ((results.foldl updateMetrics initMetrics).totalTests = 0 →
      serveMetricsSuccessRate (results.foldl updateMetrics initMetrics) = 0) := by
  obtain ⟨h1, h2, h3⟩ := countersConsistent_fold results
  constructor
  · unfold goMax
    split <;> omega
  · intro h0
    have hs : (results.foldl updateMetrics initMetrics).successfulTests = 0 := by
      omega
    simp [serveMetricsSuccessRate, hs]

/-- Claim C9 witness: with no completed tests the served success rate is
zero. -/
theorem c9_success_rate_well_defined_witness :
    serveMetricsSuccessRate (List.foldl updateMetrics initMetrics []) = 0 :=
  (c9_success_rate_well_defined []).2 rfl

end XrayTest

namespace XrayTest

/-- Claim C2, counterexample: a task whose context is done when testing
begins (a non-success result) still gets `ResponseTime` stamped with the
elapsed wall-clock, here 3000000 ns, not zero. -/
theorem c2_counterexample :
    (testConfigWithResources envCtxDone cfg0).result ≠ .success ∧
      (testConfigWithResources envCtxDone cfg0).responseTime = 3000000 ∧
      (testConfigWithResources envCtxDone cfg0).responseTime ≠ 0 := by
  refine ⟨by decide, rfl, by decide⟩

/-- Claim C2 (amended): `ResponseTime` is `time.Since(start)` measured from
the entry of `testConfigWithResources` (so it includes port acquisition and
process spawn) and is assigned to every result produced after a successful
port acquisition regardless of outcome; only the early return on port
acquisition failure leaves it zero. -/
theorem c2_responseTime_assignment (env : TaskEnv) (config : ProxyConfig) :
    (testConfigWithResources env config).responseTime =
      match env.portAcquire with
      | some _ => env.elapsed
      | none => 0 := by
  unfold testConfigWithResources
  cases env.portAcquire <;> rfl

/-- Claim C4, counterexample: with the context already done, the returned
result is `timeout`, not `cancelled`. -/
theorem c4_counterexample :
    (testSingleConfigResourceAware envCtxDone cfg0).result = .timeout ∧
      (testSingleConfigResourceAware envCtxDone cfg0).result ≠ .cancelled := by
  refine ⟨rfl, by decide⟩

/-- Claim C4 (amended): for every task whose context is done before testing
begins, the returned result has `Result` equal to `timeout`
(`ResultTimeout`), with message `"Test cancelled: <ctx error>"`. -/
theorem c4_ctx_done_returns_timeout (env : TaskEnv) (config : ProxyConfig)
    (h : env.ctxDone = true) :
    (testSingleConfigResourceAware env config).result = .timeout ∧
      (testSingleConfigResourceAware env config).message =
        "Test cancelled: " ++ env.ctxErrMsg := by
  unfold testSingleConfigResourceAware
  rw [h]
  exact ⟨rfl, rfl⟩

/-- Claim C4 witness: the amended statement at the concrete done-context
environment. -/
theorem c4_ctx_done_returns_timeout_witness :
    (testSingleConfigResourceAware envCtxDone cfg0).result = .timeout ∧
      (testSingleConfigResourceAware envCtxDone cfg0).message =
        "Test cancelled: " ++ envCtxDone.ctxErrMsg :=
  c4_ctx_done_returns_timeout envCtxDone cfg0 rfl

/-- Claim C5, counterexample: the message produced for a recovered panic is
"panic in worker: boom", not "panic: boom". -/
theorem c5_counterexample :
    safeExecute (.panics ("boom")) ≠ some ("panic: boom") := by
  decide

/-- Claim C5 (amended): a recovered panic is converted into the error
"panic in worker: value" pushed on the pool's error queue (not into a
failure TestResultData), and the worker continues serving the remaining
tasks unchanged. -/
theorem c5_panic_isolation (v : String) (pre post : List TaskOutcome) :
    workerRun (pre ++ .panics v :: post) =
      workerRun pre ++ some ("panic in worker: " ++ v) :: workerRun post := by
  unfold workerRun
  rw [List.map_append, List.map_cons]
  rfl

/-- Claim C6, counterexample: with resident memory exactly at the limit
(1024 MB of 1024 MB) and no active processes, `canTest` admits even though
resident memory is not strictly below the limit. -/
theorem c6_counterexample :
    canTest resMemEq = true ∧ ¬(memoryMB resMemEq < resMemEq.maxMemoryMB) := by
  refine ⟨by decide, by decide⟩

/-- Claim C6 (amended): `canTest` admits if and only if the memory limit is
non-positive (disabled) or resident memory in MB is at most (not strictly
below) `MaxMemoryMB`, and `activeProcesses` is strictly below `MaxWorkers`;
when it denies, the task records `resource_exhausted` immediately and its
result is independent of the task environment, so no child process is
spawned. -/
theorem c6_admission_rule (s : ResourceState) :
    (canTest s = true ↔
      ((s.maxMemoryMB ≤ 0 ∨ memoryMB s ≤ s.maxMemoryMB) ∧
        s.activeProcesses < s.maxWorkers)) ∧
    (canTest s = false →
      ∀ (env : TaskEnv) (config : ProxyConfig),
        taskResult s env config =
          { config := config, result := .resourceExhausted,
            message := "Insufficient resources", responseTime := 0 }) := by
  constructor
  · unfold canTest
    by_cases h1 : s.maxMemoryMB > 0 && memoryMB s > s.maxMemoryMB <;>
      by_cases h2 : s.activeProcesses ≥ s.maxWorkers <;>
        simp [h1, h2] <;> simp at h1 <;> omega
  · intro h env config
    unfold taskResult
    rw [h]
    rfl

/-- Claim C6 witness: the amended statement at the concrete denied state
(process limit reached). -/
theorem c6_admission_rule_witness :
    taskResult resBusy envOk cfg0 =
      { config := cfg0, result := .resourceExhausted,
        message := "Insufficient resources", responseTime := 0 } :=
  (c6_admission_rule resBusy).2 (by decide) envOk cfg0

/-- Claim C7, counterexample: when port acquisition fails, the recorded
result is `port_conflict`, not `port_exhausted`. -/
theorem c7_counterexample :
    (testConfigWithResources envNoPort cfg0).result = .portConflict ∧
      (testConfigWithResources envNoPort cfg0).result ≠ .portExhausted := by
  refine ⟨rfl, by decide⟩

/-- Claim C7 (amended): a failed `PortManager.Acquire` is recovered inside
the task and recorded as a `port_conflict` result with message
"Failed to acquire port: err" for that config, and the batch continues:
a submitted task is prepended to whatever results the remaining items
produce. -/
theorem c7_port_failure_recorded (env : TaskEnv) (config : ProxyConfig)
    (h : env.portAcquire = none) :
    ((testConfigWithResources env config).result = .portConflict ∧
      (testConfigWithResources env config).message =
        "Failed to acquire port: " ++ env.acquireErrMsg) ∧
    ∀ (it : BatchItem) (rest : List BatchItem) (rs : List TestResultData),
      it.ctxDoneAtSubmit = false → it.submitOk = true →
      submitLoop rest = some rs →
      submitLoop (it :: rest) =
        some (taskResult it.res it.env it.config :: rs) := by
  constructor
  · unfold testConfigWithResources
    rw [h]
    exact ⟨rfl, rfl⟩
  · intro it rest rs h1 h2 h3
    unfold submitLoop
    rw [h1, h3, h2]
    simp

/-- Claim C7 witness: a batch whose first task cannot acquire a port records
the port-conflict result and still tests the remaining config. -/
theorem c7_port_failure_recorded_witness :
    submitLoop [itemNoPort, itemOk] =
      some (taskResult resOk envNoPort cfg0 ::
        [taskResult resOk envOk cfg0]) :=
  (c7_port_failure_recorded envNoPort cfg0 rfl).2 itemNoPort [itemOk]
    [taskResult resOk envOk cfg0] rfl rfl rfl

end XrayTest

namespace XrayTest

/-- Claim C3, counterexample: a non-success result carrying a positive
response time (2 s) changes the running average, so the average is not
updated only by successful samples. -/
theorem c3_counterexample :
    failRD.result ≠ .success ∧
      (updateMetrics initMetrics failRD).avgResponseTime ≠
        initMetrics.avgResponseTime := by
  have hne : ¬(TestResult.failure = TestResult.success) := by decide
  refine ⟨by decide, ?_⟩
  norm_num [updateMetrics, initMetrics, failRD, durationSeconds, hne]

/-- Claim C3 (amended): `avg_response_time` is updated by every completed
result with a positive `ResponseTime`, success or not, by the running mean
`avg' = (avg * (total - 1) + sample) / total` where `total` counts all
completed tests; a result whose `ResponseTime` is zero (successful or not)
leaves the average unchanged. -/
theorem c3_avg_update_rule (m : TestMetrics) (r : TestResultData)
    (hm : 0 ≤ m.totalTests) :
    (updateMetrics m r).avgResponseTime =
      if 0 < r.responseTime then
        (m.avgResponseTime * (((m.totalTests + 1 : Int) : ℚ) - 1)
            + durationSeconds r.responseTime) / ((m.totalTests + 1 : Int) : ℚ)
      else m.avgResponseTime := by
  have hpos : m.totalTests + 1 > 0 := by omega
  unfold updateMetrics
  by_cases hs : r.result = .success <;>
    by_cases hrt : r.responseTime > 0 <;>
      simp [hs, hrt, hpos]

/-- Claim C3 witness: the amended update rule at the concrete failed result
with a 2 s sample, starting from the initial metrics. -/
theorem c3_avg_update_rule_witness :
    (updateMetrics initMetrics failRD).avgResponseTime =
      if 0 < failRD.responseTime then
        (initMetrics.avgResponseTime *
            (((initMetrics.totalTests + 1 : Int) : ℚ) - 1)
            + durationSeconds failRD.responseTime) /
          ((initMetrics.totalTests + 1 : Int) : ℚ)
      else initMetrics.avgResponseTime :=
  c3_avg_update_rule initMetrics failRD (by decide)

end XrayTest

namespace Collector

/-- The v2rayN decode step never touches the server port. -/
theorem applyV2rayN_serverPort (d : String → String) (b : SocksHttpBean) :
    (applyV2rayN d b).serverPort = b.serverPort := by
  unfold applyV2rayN
  split
  · split <;> rfl
  · rfl

/-- The v2rayN decode step never touches the server address. -/
theorem applyV2rayN_serverAddress (d : String → String) (b : SocksHttpBean) :
    (applyV2rayN d b).serverAddress = b.serverAddress := by
  unfold applyV2rayN
  split
  · split <;> rfl
  · rfl

/-- The port-default step never touches the server address. -/
theorem applyPortDefault_serverAddress (b : SocksHttpBean) :
    (applyPortDefault b).serverAddress = b.serverAddress := by
  unfold applyPortDefault
  split <;> rfl

/-- Claim C10: for every socks or http(s) link whose URL carries no explicit
port (`QUrl::port()` = -1) and whose host is non-empty (so parsing
succeeds), the parsed `serverPort` defaults to 1080 when the link is a socks
link and to 443 when it is an http(s) link. -/
theorem c10_default_ports (decodeB64 : String → String) (link : String)
    (url : QUrlView) (bean : SocksHttpBean)
    (hv : url.isValid = true) (hp : url.port = -1) (hh : ¬(url.host = ""))
    (hl : strStartsWith link ("socks") = true ∨
      strStartsWith link ("http") = true) :
    (tryParseLink decodeB64 link url bean).map (fun b => b.serverPort) =
      some (if strStartsWith link ("socks") then (1080 : Int) else 443) := by
  have haddr :
      (applyV2rayN decodeB64
          (applyPortDefault (parseBase link url bean))).serverAddress =
        url.host := by
    rw [applyV2rayN_serverAddress, applyPortDefault_serverAddress]
    rfl
  have hport :
      (applyV2rayN decodeB64
          (applyPortDefault (parseBase link url bean))).serverPort =
        (if strStartsWith link ("socks") then (1080 : Int) else 443) := by
    rw [applyV2rayN_serverPort]
    unfold applyPortDefault parseBase
    by_cases hs : strStartsWith link ("socks") = true
    · simp [hs, hp]
    · rcases hl with hl | hl
      · exact absurd hl hs
      · simp [hs, hl, hp]
  simp only [tryParseLink, hv, Bool.not_true, Bool.false_eq_true, if_false]
  rw [if_neg (by rw [haddr]; exact hh)]
  simp [hport]

/-- Claim C10 witness: a socks link with no explicit port parses to
`serverPort` 1080. -/
theorem c10_default_ports_witness :
    (tryParseLink (fun _ => "") ("socks://example.com") urlNoPort
        SocksHttpBean.mkDefault).map (fun b => b.serverPort) =
      some (if strStartsWith ("socks://example.com") ("socks") then (1080 : Int)
        else 443) :=
  c10_default_ports (fun _ => "") ("socks://example.com") urlNoPort
    SocksHttpBean.mkDefault rfl rfl (by decide) (Or.inl (by decide))

end Collector
